import Mathlib

/-!
Verification development for the `ondd-ipc` package: a shallow embedding of
`ondd_ipc/utils.py` and `ondd_ipc/ipc.py` (Python 2 semantics: the test suite
relies on `str`/bytes unification in `read` and on integer floor division in
`parse_transfer`, and the modules carry `from __future__ import
unicode_literals` but not `division`).

Modelling conventions:
- Python exceptions are the inductive `PyExc`; code that can raise returns
  `Except PyExc α`.
- Bytes (`sock.recv` results, encoded payloads) are `List Nat`.
- `xml.etree` element trees are `XmlNode`; `ET.fromstring` is abstracted:
  an operation's decoded document is an `Option XmlNode` argument, `none`
  standing for "no data from the socket, empty data, or a parse error"
  (exactly the cases in which `ONDDClient.query` returns `None`).
- Python floats are modelled as exact rationals (`Rat`); only literal decimal
  strings are parsed (exponents, `inf`, `nan` are out of scope, and IEEE
  rounding is not modelled).
- UTF-8 decoding of the bytes returned by `read` is modelled as the identity
  on byte sequences (transport-level claims are stated on bytes).
-/

deriving instance DecidableEq for Except

namespace OnddIpc

/-- Python exceptions that the embedded code can raise. -/
inductive PyExc where
  | typeError
  | valueError
  | indexError
  | attributeError
  | socketError
  | socketTimeout
deriving Repr, DecidableEq

/-- `socket.error` / `socket.timeout`: the exceptions caught by `send`. -/
def PyExc.isSock : PyExc → Bool
  | .socketError => true
  | .socketTimeout => true
  | _ => false

/-- An `xml.etree.ElementTree` element: tag, attributes, text, children. -/
inductive XmlNode where
  | mk (tag : String) (attrs : List (String × String)) (text : Option String)
       (children : List XmlNode)

def XmlNode.tag : XmlNode → String
  | .mk t _ _ _ => t

def XmlNode.attrs : XmlNode → List (String × String)
  | .mk _ a _ _ => a

def XmlNode.text : XmlNode → Option String
  | .mk _ _ t _ => t

def XmlNode.children : XmlNode → List XmlNode
  | .mk _ _ _ c => c

/-- `Element.find(tag)`: first direct child with the given tag, or `None`.
(The source only ever passes single-segment paths to `find`.) -/
def XmlNode.find (n : XmlNode) (tag : String) : Option XmlNode :=
  n.children.find? (fun c => c.tag == tag)

/-- `Element.get(key)`: attribute lookup with default `None`. -/
def XmlNode.getAttr (n : XmlNode) (key : String) : Option String :=
  (n.attrs.find? (fun p => p.1 == key)).map (fun p => p.2)

/-- Value of a run of decimal digit characters. -/
def digitsToNat (cs : List Char) : Nat :=
  cs.foldl (fun a c => a * 10 + (c.toNat - 48)) 0

/-- A nonempty all-digit run, or `none`. -/
def parseDigits (cs : List Char) : Option Nat :=
  if cs ≠ [] ∧ cs.all Char.isDigit then some (digitsToNat cs) else none

/-- Strip leading and trailing whitespace (Python's `str.strip`, applied
implicitly by `int`/`float`). -/
def trimChars (cs : List Char) : List Char :=
  ((cs.dropWhile Char.isWhitespace).reverse.dropWhile Char.isWhitespace).reverse

/-- Split a character list on a separator character (semantics of Python's
`str.split(sep)` for one-character separators). -/
def splitOnChar (sep : Char) : List Char → List (List Char)
  | [] => [[]]
  | c :: rest =>
    let r := splitOnChar sep rest
    if c = sep then [] :: r
    else
      match r with
      | [] => [[c]]
      | h :: t => (c :: h) :: t

/-- Python `int(s)` on a string: optional sign, digits, surrounding
whitespace; anything else raises `ValueError`. -/
def pyStrToInt (s : String) : Except PyExc Int :=
  match trimChars s.data with
  | '-' :: rest =>
    match parseDigits rest with
    | some n => Except.ok (-(n : Int))
    | none => Except.error PyExc.valueError
  | '+' :: rest =>
    match parseDigits rest with
    | some n => Except.ok ((n : Int))
    | none => Except.error PyExc.valueError
  | cs =>
    match parseDigits cs with
    | some n => Except.ok ((n : Int))
    | none => Except.error PyExc.valueError

/-- The `int(x or 0)` idiom applied to an optional string `x`: `None` and
`''` are falsy and give `int(0) = 0`; otherwise the string is parsed. -/
def pyIntOrZero (v : Option String) : Except PyExc Int :=
  match v with
  | none => Except.ok 0
  | some s => if s = "" then Except.ok 0 else pyStrToInt s

/-- Python `float(s)` on a string: optional sign, decimal digits with an
optional fractional part, as an exact rational. -/
def pyStrToFloat (s : String) : Except PyExc Rat :=
  let t := trimChars s.data
  let sgn : Rat := if t.head? = some '-' then -1 else 1
  let body := if t.head? = some '-' ∨ t.head? = some '+' then t.drop 1 else t
  match splitOnChar '.' body with
  | [ip] =>
    match parseDigits ip with
    | some n => Except.ok (sgn * (n : Rat))
    | none => Except.error PyExc.valueError
  | [ip, fp] =>
    if (ip.all Char.isDigit ∧ fp.all Char.isDigit) ∧ (ip ≠ [] ∨ fp ≠ []) then
      Except.ok (sgn * ((digitsToNat ip : Rat) +
        (digitsToNat fp : Rat) / (10 ^ fp.length : Rat)))
    else Except.error PyExc.valueError
  | _ => Except.error PyExc.valueError

/-- Python `float(x)` on an optional string: `float(None)` raises
`TypeError`. -/
def pyFloat (v : Option String) : Except PyExc Rat :=
  match v with
  | none => Except.error PyExc.typeError
  | some s => pyStrToFloat s

/-- `get_text(root, xpath, default='')` from `ipc.py`:
`try: return root.find(xpath).text except AttributeError: return default`.
`root = None` or a failed `find` hits the `AttributeError` branch and gives
the default; a found node yields its `text`, which may itself be `None`. -/
def get_text (root : Option XmlNode) (xpath : String) (default : String := "") :
    Option String :=
  match root with
  | none => some default
  | some r =>
    match r.find xpath with
    | none => some default
    | some node => node.text

/- ===== utils.py ===== -/

def KU_BAND : String := "k"
def C_BAND : String := "c"
def UNIVERSAL : String := "u"

def C_OFF : Int := 5150
def NA_KU_OFF : Int := 10750
def UN_LO_OFF : Int := 9750
def UN_HI_OFF : Int := 10600
def UN_HI_SW : Int := 11700

/-- `kw2xml(**kwargs)`: concatenates `<key>val</key>` fragments, values
inserted verbatim (the `%s` coercion to text is assumed already applied). -/
def kw2xml (kwargs : List (String × String)) : String :=
  kwargs.foldl (fun xml kv => xml ++ ("<" ++ kv.1 ++ ">" ++ kv.2 ++ "</" ++ kv.1 ++ ">")) ""

/-- `xml2dict(xml)`: dict of child tag → child text, later children with the
same tag overwriting earlier ones (modelled as an in-place assoc update). -/
def dictUpdate (d : List (String × Option String)) (k : String) (v : Option String) :
    List (String × Option String) :=
  if d.any (fun p => p.1 == k) then
    d.map (fun p => if p.1 == k then (k, v) else p)
  else d ++ [(k, v)]

def xml2dict (x : XmlNode) : List (String × Option String) :=
  x.children.foldl (fun d node => dictUpdate d node.tag node.text) []

/-- `v2pol(volts)`: voltage string to polarization. -/
def v2pol (volts : Option String) : String :=
  if volts = some "13" then "v"
  else if volts = some "18" then "h"
  else "0"

/-- `freq_conv(freq, lnb_type)`: transponder frequency to L-band. -/
def freq_conv (freq : Int) (lnb_type : String) : Int :=
  if lnb_type = KU_BAND then freq - NA_KU_OFF
  else if lnb_type = C_BAND then |freq - C_OFF|
  else if freq > UN_HI_SW then freq - UN_HI_OFF
  else freq - UN_LO_OFF

/-- `needs_tone(freq, lnb_type)`: whether the LNB needs a 22KHz tone. -/
def needs_tone (freq : Int) (lnb_type : String) : Bool :=
  if lnb_type = KU_BAND ∨ lnb_type = C_BAND then false
  else decide (freq > UN_HI_SW)

/- ===== ipc.py: transport ===== -/

def xml_get_path (path : String) : String :=
  "<get uri=\"" ++ path ++ "\" />"

def xml_put_path (path : String) (subtree : String := "") : String :=
  "<put uri=\"" ++ path ++ "\">" ++ subtree ++ "</put>"

def ONDD_BAD_RESPONSE_CODE : String := "400"

/-- The epilogue of `read`: `if data[-1] == '\0': data = data[:-1]` —
indexing `data[-1]` raises `IndexError` on an empty buffer. -/
def stripNull (data : List Nat) : Except PyExc (List Nat) :=
  match data.getLast? with
  | none => Except.error PyExc.indexError
  | some b => Except.ok (if b = 0 then data.dropLast else data)

/-- Strip a trailing NUL byte if present (specification-side helper used to
state what `read` returns on a nonempty buffer). -/
def stripIfNull (data : List Nat) : List Nat :=
  if data.getLast? = some 0 then data.dropLast else data

/-- The `while idata and b'\0' not in idata` loop of `read`. `rest` is the
sequence of outcomes of the remaining `sock.recv` calls; once it is
exhausted further reads return the empty chunk (peer closed). -/
def readLoop (data idata : List Nat) (rest : List (Except PyExc (List Nat))) :
    Except PyExc (List Nat) :=
  if idata = [] ∨ 0 ∈ idata then stripNull data
  else
    match rest with
    | [] => stripNull data
    | Except.error e :: _ => Except.error e
    | Except.ok next :: rs => readLoop (data ++ next) next rs

/-- `read(sock, buffsize=2048)` over the sequence of `sock.recv` outcomes
(each chunk has at most `buffsize` bytes; chunk contents are fixed by the
oracle, so `buffsize` does not otherwise enter the model). -/
def read (recvs : List (Except PyExc (List Nat))) (buffsize : Nat := 2048) :
    Except PyExc (List Nat) :=
  match recvs with
  | [] => stripNull []
  | Except.error e :: _ => Except.error e
  | Except.ok d0 :: rs => readLoop d0 d0 rs

def nullChar : Char := Char.ofNat 0

/-- `null_terminate(s)`: `if s[-1] == '\0': return s` / `return s + '\0'`;
`s[-1]` raises `IndexError` on the empty string. -/
def null_terminate (s : String) : Except PyExc String :=
  match s.data.getLast? with
  | none => Except.error PyExc.indexError
  | some c => Except.ok (if c = nullChar then s else s.push nullChar)

/-- `payload.encode('utf8')`. -/
def utf8Encode (s : String) : List Nat :=
  s.toUTF8.toList.map (fun b => b.toNat)

/-- Line 111 of `ipc.py`: `payload = null_terminate(payload).encode(OUT_ENCODING)`
(runs before the `try` block, so its exceptions propagate). -/
def wirePayload (payload : String) : Except PyExc (List Nat) :=
  (null_terminate payload).map utf8Encode

/-- One call's transport behaviour: outcome of `connect`, of `sock.send`,
and of the successive `sock.recv` calls. The context manager's
`shutdown`/`close` on exit does not alter the propagated outcome. -/
structure SockWorld where
  connectExc : Option PyExc := none
  sendExc : Option PyExc := none
  recvs : List (Except PyExc (List Nat)) := []

/-- Body of the `try` block in `send`: connect, send, read. -/
def sendBody (w : SockWorld) : Except PyExc (List Nat) :=
  match w.connectExc with
  | some e => Except.error e
  | none =>
    match w.sendExc with
    | some e => Except.error e
    | none => read w.recvs

/-- `send(socket_path, payload)`: NUL-terminate and encode the payload,
run the exchange, swallow `(socket.error, socket.timeout)` into `None`. -/
def send (payload : String) (w : SockWorld) : Except PyExc (Option (List Nat)) :=
  match wirePayload payload with
  | Except.error e => Except.error e
  | Except.ok _wire =>
    match sendBody w with
    | Except.ok d => Except.ok (some d)
    | Except.error e => if e.isSock then Except.ok none else Except.error e

/- ===== ipc.py: ONDDClient decode layer =====

Each operation below is the part of the corresponding `ONDDClient` method
that runs after `self.query(payload)`: its argument is the parsed response
root, with `none` standing for "query returned None" (send failure, empty
response data, or an `ET.ParseError`). -/

structure StreamEntry where
  id : Option String
  bitrate : Int
deriving Repr, DecidableEq

structure StatusDict where
  has_lock : Bool
  signal : Int
  snr : Rat
  streams : List StreamEntry
deriving Repr, DecidableEq

structure FileEntry where
  path : Option String
  size : Int
deriving Repr, DecidableEq

structure CacheDict where
  used : Int
  free : Int
deriving Repr, DecidableEq

structure SettingsDict where
  frequency : Int
  delivery : Option String
  modulation : Option String
  polarization : String
  tone : Bool
  azimuth : Int
deriving Repr, DecidableEq

structure TransferDict where
  path : String
  filename : String
  hash : Option String
  block_count : Int
  block_received : Int
  percentage : Int
  complete : Bool
deriving Repr, DecidableEq

/-- `os.path.basename` for POSIX paths: the part after the last `/`. -/
def basename (p : String) : String :=
  String.mk (((splitOnChar '/' p.data).getLast?).getD [])

/-- `parse_transfer(transfer)` from `ipc.py`. `percentage` uses Python 2
integer division (`/` on two ints floors), with `(block_count or 1)`
replacing a zero count by 1. -/
def parse_transfer (transfer : XmlNode) : Except PyExc TransferDict := do
  let path := (get_text (some transfer) "path").getD ""
  let block_count ← pyIntOrZero (get_text (some transfer) "block_count")
  let block_received ← pyIntOrZero (get_text (some transfer) "block_received")
  let complete := get_text (some transfer) "complete" == some "yes"
  let percentage : Int :=
    if complete then 100
    else (block_received * 100).fdiv (if block_count = 0 then 1 else block_count)
  pure { path := path
         filename := basename path
         hash := get_text (some transfer) "hash"
         block_count := block_count
         block_received := block_received
         percentage := percentage
         complete := complete }

/-- `ONDDClient.get_status`. The dict literal evaluates its values in
order; the `streams` list comprehension iterates `root.find('streams')`,
raising `TypeError` when that node is absent (`None` is not iterable). -/
def get_status (root : Option XmlNode) : Except PyExc StatusDict :=
  match root with
  | none => Except.ok { has_lock := false, signal := 0, snr := 0, streams := [] }
  | some r => do
    let tuner := r.find "tuner"
    let streams := r.find "streams"
    let has_lock := get_text tuner "lock" == some "yes"
    let signal ← pyIntOrZero (get_text tuner "signal")
    let snr ← pyFloat (get_text tuner "snr" "0.0")
    let streamList ← match streams with
      | none => Except.error PyExc.typeError
      | some sn => sn.children.mapM (fun s => do
          let bitrate ← pyIntOrZero (get_text s "bitrate")
          pure (StreamEntry.mk (get_text s "ident") bitrate))
    pure { has_lock := has_lock, signal := signal, snr := snr, streams := streamList }

/-- `ONDDClient.get_file_list`. A missing `streams` node is guarded
(returns `[]`), but a stream without a `files` child makes the inner
`for f in files` iterate `None`, raising `TypeError`. -/
def get_file_list (root : Option XmlNode) : Except PyExc (List FileEntry) :=
  match root with
  | none => Except.ok []
  | some r =>
    match r.find "streams" with
    | some streams => do
      let lists ← streams.children.mapM (fun s =>
        match s.find "files" with
        | none => Except.error PyExc.typeError
        | some files => files.children.mapM (fun f => do
            let size ← pyIntOrZero (get_text f "size")
            pure (FileEntry.mk (get_text f "path") size)))
      pure lists.flatten
    | none => Except.ok []

/-- `ONDDClient.get_cache_storage`. -/
def get_cache_storage (root : Option XmlNode) : Except PyExc CacheDict :=
  match root with
  | none => Except.ok { used := 0, free := 0 }
  | some r => do
    let cache := r.find "cache"
    let used ← pyIntOrZero (get_text cache "used")
    let free ← pyIntOrZero (get_text cache "free")
    pure { used := used, free := free }

/-- `ONDDClient.get_transfers`. A missing `streams` node is guarded, but a
stream without a `transfers` child makes the comprehension iterate `None`,
raising `TypeError`. -/
def get_transfers (root : Option XmlNode) : Except PyExc (List TransferDict) :=
  match root with
  | none => Except.ok []
  | some r =>
    match r.find "streams" with
    | some streams => do
      let lists ← streams.children.mapM (fun stream =>
        match stream.find "transfers" with
        | none => Except.error PyExc.typeError
        | some ts => ts.children.mapM parse_transfer)
      pure lists.flatten
    | none => Except.ok []

/-- `ONDDClient.get_settings`. -/
def get_settings (root : Option XmlNode) : Except PyExc SettingsDict :=
  match root with
  | none => Except.ok { frequency := 0, delivery := some "", modulation := some "",
                        polarization := "", tone := false, azimuth := 0 }
  | some r => do
    let tuner := r.find "tuner"
    let frequency ← pyIntOrZero (get_text tuner "frequency")
    let azimuth ← pyIntOrZero (get_text tuner "azimuth")
    pure { frequency := frequency
           delivery := get_text tuner "delivery"
           modulation := get_text tuner "modulation"
           polarization := v2pol (get_text tuner "voltage")
           tone := get_text tuner "tone" == some "yes"
           azimuth := azimuth }

/-- Response handling of `ONDDClient.set_settings`: `'400'` when `query`
returned `None`, otherwise the root's `code` attribute (default `None`). -/
def set_settings_response (resp : Option XmlNode) : Option String :=
  match resp with
  | none => some ONDD_BAD_RESPONSE_CODE
  | some r => r.getAttr "code"

/-- Response handling of `ONDDClient.set_output_path` (same shape as
`set_settings`). -/
def set_output_path_response (resp : Option XmlNode) : Option String :=
  match resp with
  | none => some ONDD_BAD_RESPONSE_CODE
  | some r => r.getAttr "code"

/-- `ONDDClient.get_output_path`: `None` on failure, else the root's
`path` attribute. -/
def get_output_path (resp : Option XmlNode) : Option String :=
  match resp with
  | none => none
  | some r => r.getAttr "path"

/-- `ONDDClient.get_events`: `[]` on failure or missing `events` node,
else one flat dict per child event node. Never raises. -/
def get_events (root : Option XmlNode) : List (List (String × Option String)) :=
  match root with
  | none => []
  | some r =>
    match r.find "events" with
    | some events => events.children.map xml2dict
    | none => []

/- ===== concrete documents used in the theorems below ===== -/

/-- Shorthand for a leaf element with text. -/
def tnode (tag text : String) : XmlNode := XmlNode.mk tag [] (some text) []

/-- A well-formed `/status` response without a `streams` element. -/
def statusNoStreams : XmlNode :=
  XmlNode.mk "status" [] none
    [XmlNode.mk "tuner" [] none [tnode "lock" "no"]]

/-- A well-formed `/signaling/` response whose stream has no `files`
element. -/
def signalingNoFiles : XmlNode :=
  XmlNode.mk "signaling" [] none
    [XmlNode.mk "streams" [] none [XmlNode.mk "stream" [] none []]]

/-- A transfer node reporting a negative block count. -/
def transferNeg : XmlNode :=
  XmlNode.mk "transfer" [] none
    [tnode "path" "foo/bar", tnode "hash" "h",
     tnode "block_count" "-5", tnode "block_received" "1", tnode "complete" "no"]

/-- The incomplete-transfer node from the repository's test suite. -/
def transferTest : XmlNode :=
  XmlNode.mk "transfer" [] none
    [tnode "carousel_id" "1", tnode "path" "foo/bar", tnode "hash" "1234",
     tnode "block_count" "10", tnode "block_received" "2", tnode "complete" "no"]

/-- The decoded record for `transferTest`. -/
def transferTestDict : TransferDict :=
  { path := "foo/bar", filename := "bar", hash := some "1234",
    block_count := 10, block_received := 2, percentage := 20, complete := false }

/-- A parseable put-response whose root carries `code="400"`. -/
def respCode400 : XmlNode := XmlNode.mk "response" [("code", "400")] none []

/-- A parseable put-response whose root has no `code` attribute. -/
def respNoCode : XmlNode := XmlNode.mk "response" [] none []

/-- Spec-side shape of one `kw2xml` field fragment. -/
def fragment (kv : String × String) : String :=
  "<" ++ kv.1 ++ ">" ++ kv.2 ++ "</" ++ kv.1 ++ ">"

/-- Spec-side concatenation of one fragment per field, in list order. -/
def concatFragments : List (String × String) → String
  | [] => ""
  | kv :: t => fragment kv ++ concatFragments t

/- ===== theorems ===== -/

/-- Helper: a nonempty string has a last character. -/
theorem data_ne_nil_of_ne_empty (s : String) (h : s ≠ "") : s.data ≠ [] :=
  fun hnil => h (String.ext (by rw [hnil]))

/-- Helper: `null_terminate` succeeds on every nonempty string. -/
theorem null_terminate_ok_of_ne (s : String) (h : s ≠ "") :
    ∃ t, null_terminate s = Except.ok t := by
  obtain ⟨c, hc⟩ := Option.isSome_iff_exists.mp
    (List.getLast?_isSome.mpr (data_ne_nil_of_ne_empty s h))
  exact ⟨_, by unfold null_terminate; rw [hc]⟩

/-- Claim C6: `needs_tone` is false for North-America-Ku (`"k"`) and C-band
(`"c"`) at every frequency; for Universal (`"u"`) it is true iff the
frequency is strictly greater than 11700. -/
theorem needs_tone_claim (f : Int) :
    needs_tone f KU_BAND = false ∧ needs_tone f C_BAND = false ∧
    (needs_tone f UNIVERSAL = true ↔ 11700 < f) := by
  refine ⟨by simp [needs_tone, KU_BAND, C_BAND], by simp [needs_tone, KU_BAND, C_BAND], ?_⟩
  simp [needs_tone, UNIVERSAL, KU_BAND, C_BAND, UN_HI_SW]

/-- Claim C7: the frequency conversion subtracts 10750 for
North-America-Ku, takes `|f − 5150|` for C-band (hence is symmetric about
5150 and sends 2000 to 3150), and for Universal subtracts 10600 above the
11700 switch point and 9750 at or below it. -/
theorem freq_conv_claim (f : Int) :
    freq_conv f KU_BAND = f - 10750 ∧
    freq_conv f C_BAND = |f - 5150| ∧
    freq_conv f C_BAND = freq_conv (2 * 5150 - f) C_BAND ∧
    freq_conv 2000 C_BAND = 3150 ∧
    freq_conv f UNIVERSAL = (if 11700 < f then f - 10600 else f - 9750) := by
  refine ⟨by simp [freq_conv, KU_BAND, NA_KU_OFF], by simp [freq_conv, KU_BAND, C_BAND, C_OFF],
          ?_, by decide, by simp [freq_conv, UNIVERSAL, KU_BAND, C_BAND, UN_HI_SW,
                                  UN_HI_OFF, UN_LO_OFF]⟩
  have hC : ∀ g : Int, freq_conv g C_BAND = |g - 5150| := fun g => by
    simp [freq_conv, KU_BAND, C_BAND, C_OFF]
  rw [hC, hC, show (2 * 5150 - f - 5150 : Int) = -(f - 5150) by ring, abs_neg]

/-- Claim C8: every accessor, given no decoded document, returns its
fully-populated all-default structure. -/
theorem accessors_default_claim :
    get_status none = Except.ok { has_lock := false, signal := 0, snr := 0, streams := [] } ∧
    get_settings none = Except.ok { frequency := 0, delivery := some "", modulation := some "",
                                    polarization := "", tone := false, azimuth := 0 } ∧
    get_file_list none = Except.ok [] ∧
    get_transfers none = Except.ok [] ∧
    get_cache_storage none = Except.ok { used := 0, free := 0 } ∧
    get_events none = [] ∧
    get_output_path none = none :=
  ⟨rfl, rfl, rfl, rfl, rfl, rfl, rfl⟩

/-- Helper: folding fragment-appends from any accumulator. -/
theorem foldl_fragment_append (l : List (String × String)) (a : String) :
    l.foldl (fun xml kv => xml ++ fragment kv) a = a ++ concatFragments l := by
  induction l generalizing a with
  | nil => simp [concatFragments]
  | cons kv t ih => simp only [List.foldl_cons, concatFragments, ih, String.append_assoc]

/-- Claim C9: `kw2xml` produces exactly one `<name>value</name>` fragment
per field, concatenated in field order, with values inserted unescaped; a
singleton mapping yields exactly its fragment and the empty mapping the
empty string. -/
theorem kw2xml_claim :
    (∀ l : List (String × String), kw2xml l = concatFragments l) ∧
    kw2xml [("foo", "bar")] = "<foo>bar</foo>" ∧
    kw2xml [] = "" ∧
    kw2xml [("foo", "</foo>")] = "<foo></foo></foo>" := by
  refine ⟨fun l => ?_, by decide, rfl, by decide⟩
  have h := foldl_fragment_append l ""
  simpa [kw2xml, fragment] using h

/-- Claim C10 counterexample: a parseable response whose root carries
`code="400"` also makes `set_settings`/`set_output_path` return `"400"`,
so the `"400"` marker is not returned only when no parseable response was
obtained. -/
theorem set_response_code_cex :
    set_settings_response (some respCode400) = some "400" ∧
    set_output_path_response (some respCode400) = some "400" :=
  ⟨rfl, rfl⟩

/-- Claim C10 (amended): a parseable response without a `code` attribute
makes `set_settings`/`set_output_path` return `None`, and the locally
generated `"400"` marker is returned whenever no parseable response was
obtained (a parseable response yields exactly its root's `code` attribute,
which may itself be `"400"`). -/
theorem set_response_amended (r : XmlNode) (h : r.getAttr "code" = none) :
    set_settings_response (some r) = none ∧
    set_output_path_response (some r) = none ∧
    set_settings_response none = some "400" ∧
    set_output_path_response none = some "400" :=
  ⟨by simp [set_settings_response, h], by simp [set_output_path_response, h], rfl, rfl⟩

/-- Witness for the amended claim C10 at a concrete attribute-less
response. -/
theorem set_response_amended_witness :
    set_settings_response (some respNoCode) = none ∧
    set_output_path_response (some respNoCode) = none ∧
    set_settings_response none = some "400" ∧
    set_output_path_response none = some "400" :=
  set_response_amended respNoCode rfl

/-- Claim C1: contrary to the never-raise contract, a well-formed `/status`
response without a `streams` element makes `get_status` raise `TypeError`
(iterating `None`), and a well-formed `/signaling/` response whose stream
lacks a `files` element does the same to `get_file_list`. -/
theorem client_raises_on_missing_substructure :
    get_status (some statusNoStreams) = Except.error PyExc.typeError ∧
    get_file_list (some signalingNoFiles) = Except.error PyExc.typeError := by
  constructor <;> rfl

/-- Claim C2 counterexample: a transfer node with `block_count = -5`,
`block_received = 1`, `complete = no` decodes to `percentage = -20`,
whereas the claim's formula `floor(1·100/max(-5,1))` gives 100 and the
claim asserts membership in `[0, 100]`. -/
theorem parse_transfer_claim_cex :
    (parse_transfer transferNeg).map (fun r => r.percentage) = Except.ok (-20) ∧
    ((-20 : Int) ≠ 100) ∧ ¬ ((0 : Int) ≤ -20) := by
  refine ⟨by decide, by decide, by decide⟩

/-- Claim C4 counterexample: on the empty payload, `null_terminate` (and
hence `send`, before its `try` block) raises `IndexError` instead of
appending a terminator. -/
theorem null_terminate_empty_cex :
    null_terminate "" = Except.error PyExc.indexError ∧
    send "" { connectExc := none, sendExc := none, recvs := [] } =
      Except.error PyExc.indexError := by
  constructor <;> rfl

/-- Claim C4 (amended): for every nonempty payload, the wire payload is the
payload unchanged when it already ends in NUL, and otherwise the payload
with a single NUL byte appended. -/
theorem null_terminate_amended (s : String) (h : s ≠ "") :
    (s.data.getLast? = some nullChar → null_terminate s = Except.ok s) ∧
    (s.data.getLast? ≠ some nullChar → null_terminate s = Except.ok (s.push nullChar)) := by
  constructor
  · intro hlast
    unfold null_terminate
    rw [hlast]
    simp
  · intro hlast
    obtain ⟨c, hc⟩ := Option.isSome_iff_exists.mp
      (List.getLast?_isSome.mpr (data_ne_nil_of_ne_empty s h))
    have hcne : ¬ c = nullChar := fun he => hlast (by rw [hc, he])
    unfold null_terminate
    rw [hc]
    simp [hcne]

/-- Witness for the amended claim C4 at the payload `"foo"`. -/
theorem null_terminate_amended_witness :
    (("foo" : String).data.getLast? = some nullChar →
      null_terminate "foo" = Except.ok "foo") ∧
    (("foo" : String).data.getLast? ≠ some nullChar →
      null_terminate "foo" = Except.ok ("foo".push nullChar)) :=
  null_terminate_amended "foo" (by decide)

/-- Helper: `stripNull` on a nonempty buffer strips a trailing NUL. -/
theorem stripNull_of_ne (d : List Nat) (hd : d ≠ []) :
    stripNull d = Except.ok (stripIfNull d) := by
  obtain ⟨b, hb⟩ := Option.isSome_iff_exists.mp (List.getLast?_isSome.mpr hd)
  unfold stripNull stripIfNull
  rw [hb]
  by_cases h0 : b = 0
  · subst h0; simp
  · simp [h0]

/-- Helper: running the read loop through NUL-free nonempty chunks `xs`
until the stopping chunk `c` accumulates everything. -/
theorem readLoop_run (c : List Nat) (rest : List (Except PyExc (List Nat)))
    (hc : c = [] ∨ 0 ∈ c) (xs : List (List Nat)) :
    (∀ x ∈ xs, x ≠ [] ∧ 0 ∉ x) →
    ∀ data idata : List Nat, idata ≠ [] → 0 ∉ idata →
      readLoop data idata (xs.map Except.ok ++ Except.ok c :: rest) =
        stripNull (data ++ xs.flatten ++ c) := by
  induction xs with
  | nil =>
    intro _ data idata hne h0
    rw [readLoop.eq_def, if_neg (by simp [hne, h0])]
    simp only [List.map_nil, List.nil_append]
    show readLoop (data ++ c) c rest = stripNull (data ++ List.flatten [] ++ c)
    rw [readLoop.eq_def, if_pos hc]
    simp
  | cons y ys ih =>
    intro hxs data idata hne h0
    simp only [List.map_cons, List.cons_append]
    rw [readLoop.eq_def, if_neg (by simp [hne, h0])]
    show readLoop (data ++ y) y (ys.map Except.ok ++ Except.ok c :: rest) =
      stripNull (data ++ List.flatten (y :: ys) ++ c)
    rw [ih (fun x hx => hxs x (List.mem_cons_of_mem _ hx)) (data ++ y) y
          (hxs y (List.mem_cons_self _ _)).1 (hxs y (List.mem_cons_self _ _)).2]
    simp [List.flatten_cons, List.append_assoc]

/-- Claim C3 counterexample: with a single chunk `"a\0b"`, `read` returns
the whole chunk `"a\0b"`, not the prefix `"a"` before the terminator that
the claim requires. -/
theorem read_midchunk_cex :
    read [Except.ok [97, 0, 98]] = Except.ok [97, 0, 98] ∧
    ([97, 0, 98] : List Nat) ≠ [97] :=
  ⟨rfl, by decide⟩

/-- Claim C3 (amended): after any run of nonempty NUL-free chunks, the read
loop stops at the first chunk that contains the NUL byte (or is empty, the
peer having closed), and returns the concatenation of all chunks received
through that chunk, with the final byte removed when it is the NUL
terminator; when the first chunk is empty the epilogue indexes an empty
buffer instead (claim C4's IndexError path), so at least one byte must
arrive. -/
theorem read_amended (pre : List (List Nat)) (c : List Nat)
    (rest : List (Except PyExc (List Nat)))
    (hpre : ∀ x ∈ pre, x ≠ [] ∧ 0 ∉ x)
    (hstop : c = [] ∨ 0 ∈ c)
    (hne : pre = [] → c ≠ []) :
    read (pre.map Except.ok ++ Except.ok c :: rest) =
      Except.ok (stripIfNull (pre.flatten ++ c)) := by
  cases pre with
  | nil =>
    have hcne : c ≠ [] := hne rfl
    have hc0 : 0 ∈ c := by
      rcases hstop with h | h
      · exact absurd h hcne
      · exact h
    simp only [List.map_nil, List.nil_append]
    show readLoop c c rest = _
    rw [readLoop.eq_def, if_pos (Or.inr hc0), stripNull_of_ne c hcne]
    simp
  | cons y ys =>
    have hy := hpre y (List.mem_cons_self _ _)
    simp only [List.map_cons, List.cons_append]
    show readLoop y y (ys.map Except.ok ++ Except.ok c :: rest) = _
    rw [readLoop_run c rest hstop ys (fun x hx => hpre x (List.mem_cons_of_mem _ hx)) y y
          hy.1 hy.2]
    have hnn : y ++ ys.flatten ++ c ≠ [] := by
      intro hemp
      rcases List.append_eq_nil.mp hemp with ⟨h1, _⟩
      rcases List.append_eq_nil.mp h1 with ⟨h2, _⟩
      exact hy.1 h2
    rw [stripNull_of_ne _ hnn]
    simp [List.flatten_cons, List.append_assoc]

/-- Witness for the amended claim C3: the chunk sequence
`"a","b","c","d\0","e","f"` from the spec yields `"abcd"` after four
reads. -/
theorem read_amended_witness :
    read [Except.ok [97], Except.ok [98], Except.ok [99], Except.ok [100, 0],
          Except.ok [101], Except.ok [102]] = Except.ok [97, 98, 99, 100] := by
  have h := read_amended [[97], [98], [99]] [100, 0] [Except.ok [101], Except.ok [102]]
    (by decide) (by decide) (fun hp => absurd hp (by decide))
  exact h.trans (by decide)

/-- Claim C2 (amended): a decoded transfer has `percentage = 100` whenever
`complete` is `yes`; otherwise `percentage` is the Python floor division
`block_received * 100 // (block_count if block_count ≠ 0 else 1)`; and
whenever `0 ≤ block_received ≤ block_count` (the data-model invariant) the
percentage lies in `[0, 100]`. -/
theorem parse_transfer_amended (t : XmlNode) (r : TransferDict)
    (h : parse_transfer t = Except.ok r) :
    (r.complete = true → r.percentage = 100) ∧
    (r.complete = false →
      r.percentage = (r.block_received * 100).fdiv
        (if r.block_count = 0 then 1 else r.block_count)) ∧
    (0 ≤ r.block_received → r.block_received ≤ r.block_count →
      0 ≤ r.percentage ∧ r.percentage ≤ 100) := by
  unfold parse_transfer at h
  cases hbc : pyIntOrZero (get_text (some t) "block_count") with
  | error e => rw [hbc] at h; simp [Bind.bind, Except.bind] at h
  | ok bc =>
    rw [hbc] at h
    cases hbr : pyIntOrZero (get_text (some t) "block_received") with
    | error e => rw [hbr] at h; simp [Bind.bind, Except.bind] at h
    | ok br =>
      rw [hbr] at h
      simp only [Bind.bind, Except.bind, pure, Except.pure, Except.ok.injEq] at h
      subst h
      by_cases hcomp : (get_text (some t) "complete" == some "yes") = true
      · refine ⟨fun _ => ?_, fun hfalse => ?_, fun _ _ => ?_⟩
        · dsimp only
          rw [if_pos hcomp]
        · dsimp only at hfalse
          rw [hcomp] at hfalse
          simp at hfalse
        · dsimp only
          rw [if_pos hcomp]
          norm_num
      · have hcf : (get_text (some t) "complete" == some "yes") = false :=
          Bool.not_eq_true _ |>.mp hcomp
        refine ⟨fun htrue => ?_, fun _ => ?_, fun h0 hle => ?_⟩
        · dsimp only at htrue
          rw [hcf] at htrue
          simp at htrue
        · dsimp only
          rw [if_neg (by simp [hcf])]
        · dsimp only at h0 hle ⊢
          rw [if_neg (by simp [hcf])]
          by_cases hbc0 : bc = 0
          · subst hbc0
            have hbr0 : br = 0 := le_antisymm hle h0
            subst hbr0
            decide
          · have hpos : 0 < bc := lt_of_le_of_ne (le_trans h0 hle) (Ne.symm hbc0)
            rw [if_neg hbc0, Int.fdiv_eq_ediv _ hpos.le]
            constructor
            · exact Int.ediv_nonneg (mul_nonneg h0 (by norm_num)) hpos.le
            · calc br * 100 / bc ≤ bc * 100 / bc :=
                    Int.ediv_le_ediv hpos (mul_le_mul_of_nonneg_right hle (by norm_num))
                _ = 100 := Int.mul_ediv_cancel_left 100 hbc0

/-- Witness for the amended claim C2 at the incomplete transfer from the
repository's test suite (`block_count=10`, `block_received=2`,
`complete=no`, `percentage=20`). -/
theorem parse_transfer_amended_witness :
    (transferTestDict.complete = true → transferTestDict.percentage = 100) ∧
    (transferTestDict.complete = false →
      transferTestDict.percentage = (transferTestDict.block_received * 100).fdiv
        (if transferTestDict.block_count = 0 then 1 else transferTestDict.block_count)) ∧
    (0 ≤ transferTestDict.block_received →
      transferTestDict.block_received ≤ transferTestDict.block_count →
      0 ≤ transferTestDict.percentage ∧ transferTestDict.percentage ≤ 100) :=
  parse_transfer_amended transferTest transferTestDict (by decide)

/-- Claim C5: whenever the connect/send/read exchange raises a socket error
or timeout, `send` returns `None` instead of propagating the exception. -/
theorem send_swallows_socket_errors (payload : String) (w : SockWorld) (e : PyExc)
    (hp : payload ≠ "") (hb : sendBody w = Except.error e) (he : e.isSock = true) :
    send payload w = Except.ok none := by
  obtain ⟨t, ht⟩ := null_terminate_ok_of_ne payload hp
  unfold send wirePayload
  rw [ht, hb]
  simp [Except.map, he]

/-- Witness for claim C5: a timeout at connect time yields `None`. -/
theorem send_swallows_socket_errors_witness :
    send "x" { connectExc := some PyExc.socketTimeout, sendExc := none, recvs := [] } =
      Except.ok none :=
  send_swallows_socket_errors "x" _ PyExc.socketTimeout (by decide) rfl rfl

end OnddIpc
